import Mathlib

/-!
Verification of the opcode table (`src/core/src/opcode.rs`) and the
`Handler` trait defaults (`src/runtime/src/handler.rs`) of the
humanode-network/evm repository, via a shallow embedding in Lean.

Bytes (`u8` in the source) are embedded as `Nat`, with the bound
`< 256` carried as an explicit hypothesis or a `Fin 256` binder where a
statement quantifies over "every byte".  None of the embedded arithmetic
can overflow a `u8` (the only subtraction, `value - 0x60 + 1`, happens
under the guard `0x60 <= value`).
-/

/-- Embedding of `pub struct Opcode(pub u8)`: a one-byte instruction
identifier.  The single tuple field `self.0` is embedded as `toByte`. -/
structure Opcode where
  toByte : Nat
  deriving DecidableEq, Repr

namespace Opcode

/-- Embedding of `Opcode::as_str` (`opcode.rs` lines 18-143): the mnemonic
table, a `match` on the byte with a catch-all `None` arm.  The arms appear
here in exactly the source's order. -/
def as_str (o : Opcode) : Option String :=
  match o.toByte with
  | 0x00 => some "STOP"
  | 0x01 => some "ADD"
  | 0x02 => some "MUL"
  | 0x03 => some "SUB"
  | 0x04 => some "DIV"
  | 0x05 => some "SDIV"
  | 0x06 => some "MOD"
  | 0x07 => some "SMOD"
  | 0x08 => some "ADDMOD"
  | 0x09 => some "MULMOD"
  | 0x0a => some "EXP"
  | 0x0b => some "SIGNEXTEND"
  | 0x10 => some "LT"
  | 0x11 => some "GT"
  | 0x12 => some "SLT"
  | 0x13 => some "SGT"
  | 0x14 => some "EQ"
  | 0x15 => some "ISZERO"
  | 0x16 => some "AND"
  | 0x17 => some "OR"
  | 0x18 => some "XOR"
  | 0x19 => some "NOT"
  | 0x1a => some "BYTE"
  | 0x35 => some "CALLDATALOAD"
  | 0x36 => some "CALLDATASIZE"
  | 0x37 => some "CALLDATACOPY"
  | 0x38 => some "CODESIZE"
  | 0x39 => some "CODECOPY"
  | 0x1b => some "SHL"
  | 0x1c => some "SHR"
  | 0x1d => some "SAR"
  | 0x50 => some "POP"
  | 0x51 => some "MLOAD"
  | 0x52 => some "MSTORE"
  | 0x53 => some "MSTORE8"
  | 0x56 => some "JUMP"
  | 0x57 => some "JUMPI"
  | 0x58 => some "PC"
  | 0x59 => some "MSIZE"
  | 0x5b => some "JUMPDEST"
  | 0x5f => some "PUSH0"
  | 0x60 => some "PUSH1"
  | 0x61 => some "PUSH2"
  | 0x62 => some "PUSH3"
  | 0x63 => some "PUSH4"
  | 0x64 => some "PUSH5"
  | 0x65 => some "PUSH6"
  | 0x66 => some "PUSH7"
  | 0x67 => some "PUSH8"
  | 0x68 => some "PUSH9"
  | 0x69 => some "PUSH10"
  | 0x6a => some "PUSH11"
  | 0x6b => some "PUSH12"
  | 0x6c => some "PUSH13"
  | 0x6d => some "PUSH14"
  | 0x6e => some "PUSH15"
  | 0x6f => some "PUSH16"
  | 0x70 => some "PUSH17"
  | 0x71 => some "PUSH18"
  | 0x72 => some "PUSH19"
  | 0x73 => some "PUSH20"
  | 0x74 => some "PUSH21"
  | 0x75 => some "PUSH22"
  | 0x76 => some "PUSH23"
  | 0x77 => some "PUSH24"
  | 0x78 => some "PUSH25"
  | 0x79 => some "PUSH26"
  | 0x7a => some "PUSH27"
  | 0x7b => some "PUSH28"
  | 0x7c => some "PUSH29"
  | 0x7d => some "PUSH30"
  | 0x7e => some "PUSH31"
  | 0x7f => some "PUSH32"
  | 0x80 => some "DUP1"
  | 0x81 => some "DUP2"
  | 0x82 => some "DUP3"
  | 0x83 => some "DUP4"
  | 0x84 => some "DUP5"
  | 0x85 => some "DUP6"
  | 0x86 => some "DUP7"
  | 0x87 => some "DUP8"
  | 0x88 => some "DUP9"
  | 0x89 => some "DUP10"
  | 0x8a => some "DUP11"
  | 0x8b => some "DUP12"
  | 0x8c => some "DUP13"
  | 0x8d => some "DUP14"
  | 0x8e => some "DUP15"
  | 0x8f => some "DUP16"
  | 0x90 => some "SWAP1"
  | 0x91 => some "SWAP2"
  | 0x92 => some "SWAP3"
  | 0x93 => some "SWAP4"
  | 0x94 => some "SWAP5"
  | 0x95 => some "SWAP6"
  | 0x96 => some "SWAP7"
  | 0x97 => some "SWAP8"
  | 0x98 => some "SWAP9"
  | 0x99 => some "SWAP10"
  | 0x9a => some "SWAP11"
  | 0x9b => some "SWAP12"
  | 0x9c => some "SWAP13"
  | 0x9d => some "SWAP14"
  | 0x9e => some "SWAP15"
  | 0x9f => some "SWAP16"
  | 0xf3 => some "RETURN"
  | 0xfd => some "REVERT"
  | 0xfe => some "INVALID"
  | 0xef => some "EOFMAGIC"
  | _ => none

/-- Embedding of `Opcode::is_push` (`opcode.rs` lines 389-396): bytes in
the closed range `[0x60, 0x7f]` are PUSH instructions carrying
`value - 0x60 + 1` immediate bytes; everything else is not a push. -/
def is_push (o : Opcode) : Option Nat :=
  let value := o.toByte
  if 0x60 ≤ value ∧ value ≤ 0x7f then some (value - 0x60 + 1) else none

/-- Embedding of `Opcode::as_u8` (`opcode.rs` lines 398-401): reads back
the wrapped byte. -/
def as_u8 (o : Opcode) : Nat :=
  o.toByte

/-- Embedding of `Opcode::as_usize` (`opcode.rs` lines 403-406): the
wrapped byte, widened to `usize` (`self.0 as usize`); widening a `u8` to
`usize` is value-preserving, so on the `Nat` embedding it is the same
value as `as_u8`. -/
def as_usize (o : Opcode) : Nat :=
  o.toByte

end Opcode

namespace Opcode

/- Core opcode constants, embedding the first `impl Opcode` constant block
(`opcode.rs` lines 146-313). -/

def STOP : Opcode := ⟨0x00⟩
def ADD : Opcode := ⟨0x01⟩
def MUL : Opcode := ⟨0x02⟩
def SUB : Opcode := ⟨0x03⟩
def DIV : Opcode := ⟨0x04⟩
def SDIV : Opcode := ⟨0x05⟩
def MOD : Opcode := ⟨0x06⟩
def SMOD : Opcode := ⟨0x07⟩
def ADDMOD : Opcode := ⟨0x08⟩
def MULMOD : Opcode := ⟨0x09⟩
def EXP : Opcode := ⟨0x0a⟩
def SIGNEXTEND : Opcode := ⟨0x0b⟩
def LT : Opcode := ⟨0x10⟩
def GT : Opcode := ⟨0x11⟩
def SLT : Opcode := ⟨0x12⟩
def SGT : Opcode := ⟨0x13⟩
def EQ : Opcode := ⟨0x14⟩
def ISZERO : Opcode := ⟨0x15⟩
def AND : Opcode := ⟨0x16⟩
def OR : Opcode := ⟨0x17⟩
def XOR : Opcode := ⟨0x18⟩
def NOT : Opcode := ⟨0x19⟩
def BYTE : Opcode := ⟨0x1a⟩
def CALLDATALOAD : Opcode := ⟨0x35⟩
def CALLDATASIZE : Opcode := ⟨0x36⟩
def CALLDATACOPY : Opcode := ⟨0x37⟩
def CODESIZE : Opcode := ⟨0x38⟩
def CODECOPY : Opcode := ⟨0x39⟩
def SHL : Opcode := ⟨0x1b⟩
def SHR : Opcode := ⟨0x1c⟩
def SAR : Opcode := ⟨0x1d⟩
def POP : Opcode := ⟨0x50⟩
def MLOAD : Opcode := ⟨0x51⟩
def MSTORE : Opcode := ⟨0x52⟩
def MSTORE8 : Opcode := ⟨0x53⟩
def JUMP : Opcode := ⟨0x56⟩
def JUMPI : Opcode := ⟨0x57⟩
def PC : Opcode := ⟨0x58⟩
def MSIZE : Opcode := ⟨0x59⟩
def JUMPDEST : Opcode := ⟨0x5b⟩
def PUSH0 : Opcode := ⟨0x5f⟩
def PUSH1 : Opcode := ⟨0x60⟩
def PUSH2 : Opcode := ⟨0x61⟩
def PUSH3 : Opcode := ⟨0x62⟩
def PUSH4 : Opcode := ⟨0x63⟩
def PUSH5 : Opcode := ⟨0x64⟩
def PUSH6 : Opcode := ⟨0x65⟩
def PUSH7 : Opcode := ⟨0x66⟩
def PUSH8 : Opcode := ⟨0x67⟩
def PUSH9 : Opcode := ⟨0x68⟩
def PUSH10 : Opcode := ⟨0x69⟩
def PUSH11 : Opcode := ⟨0x6a⟩
def PUSH12 : Opcode := ⟨0x6b⟩
def PUSH13 : Opcode := ⟨0x6c⟩
def PUSH14 : Opcode := ⟨0x6d⟩
def PUSH15 : Opcode := ⟨0x6e⟩
def PUSH16 : Opcode := ⟨0x6f⟩
def PUSH17 : Opcode := ⟨0x70⟩
def PUSH18 : Opcode := ⟨0x71⟩
def PUSH19 : Opcode := ⟨0x72⟩
def PUSH20 : Opcode := ⟨0x73⟩
def PUSH21 : Opcode := ⟨0x74⟩
def PUSH22 : Opcode := ⟨0x75⟩
def PUSH23 : Opcode := ⟨0x76⟩
def PUSH24 : Opcode := ⟨0x77⟩
def PUSH25 : Opcode := ⟨0x78⟩
def PUSH26 : Opcode := ⟨0x79⟩
def PUSH27 : Opcode := ⟨0x7a⟩
def PUSH28 : Opcode := ⟨0x7b⟩
def PUSH29 : Opcode := ⟨0x7c⟩
def PUSH30 : Opcode := ⟨0x7d⟩
def PUSH31 : Opcode := ⟨0x7e⟩
def PUSH32 : Opcode := ⟨0x7f⟩
def DUP1 : Opcode := ⟨0x80⟩
def DUP2 : Opcode := ⟨0x81⟩
def DUP3 : Opcode := ⟨0x82⟩
def DUP4 : Opcode := ⟨0x83⟩
def DUP5 : Opcode := ⟨0x84⟩
def DUP6 : Opcode := ⟨0x85⟩
def DUP7 : Opcode := ⟨0x86⟩
def DUP8 : Opcode := ⟨0x87⟩
def DUP9 : Opcode := ⟨0x88⟩
def DUP10 : Opcode := ⟨0x89⟩
def DUP11 : Opcode := ⟨0x8a⟩
def DUP12 : Opcode := ⟨0x8b⟩
def DUP13 : Opcode := ⟨0x8c⟩
def DUP14 : Opcode := ⟨0x8d⟩
def DUP15 : Opcode := ⟨0x8e⟩
def DUP16 : Opcode := ⟨0x8f⟩
def SWAP1 : Opcode := ⟨0x90⟩
def SWAP2 : Opcode := ⟨0x91⟩
def SWAP3 : Opcode := ⟨0x92⟩
def SWAP4 : Opcode := ⟨0x93⟩
def SWAP5 : Opcode := ⟨0x94⟩
def SWAP6 : Opcode := ⟨0x95⟩
def SWAP7 : Opcode := ⟨0x96⟩
def SWAP8 : Opcode := ⟨0x97⟩
def SWAP9 : Opcode := ⟨0x98⟩
def SWAP10 : Opcode := ⟨0x99⟩
def SWAP11 : Opcode := ⟨0x9a⟩
def SWAP12 : Opcode := ⟨0x9b⟩
def SWAP13 : Opcode := ⟨0x9c⟩
def SWAP14 : Opcode := ⟨0x9d⟩
def SWAP15 : Opcode := ⟨0x9e⟩
def SWAP16 : Opcode := ⟨0x9f⟩
def RETURN : Opcode := ⟨0xf3⟩
def REVERT : Opcode := ⟨0xfd⟩
def INVALID : Opcode := ⟨0xfe⟩
def EOFMAGIC : Opcode := ⟨0xef⟩

/- External opcode constants, embedding the second `impl Opcode` constant
block (`opcode.rs` lines 316-385). -/

def SHA3 : Opcode := ⟨0x20⟩
def ADDRESS : Opcode := ⟨0x30⟩
def BALANCE : Opcode := ⟨0x31⟩
def SELFBALANCE : Opcode := ⟨0x47⟩
def BASEFEE : Opcode := ⟨0x48⟩
def ORIGIN : Opcode := ⟨0x32⟩
def CALLER : Opcode := ⟨0x33⟩
def CALLVALUE : Opcode := ⟨0x34⟩
def GASPRICE : Opcode := ⟨0x3a⟩
def EXTCODESIZE : Opcode := ⟨0x3b⟩
def EXTCODECOPY : Opcode := ⟨0x3c⟩
def EXTCODEHASH : Opcode := ⟨0x3f⟩
def RETURNDATASIZE : Opcode := ⟨0x3d⟩
def RETURNDATACOPY : Opcode := ⟨0x3e⟩
def BLOCKHASH : Opcode := ⟨0x40⟩
def COINBASE : Opcode := ⟨0x41⟩
def TIMESTAMP : Opcode := ⟨0x42⟩
def NUMBER : Opcode := ⟨0x43⟩
def DIFFICULTY : Opcode := ⟨0x44⟩
def GASLIMIT : Opcode := ⟨0x45⟩
def SLOAD : Opcode := ⟨0x54⟩
def SSTORE : Opcode := ⟨0x55⟩
def GAS : Opcode := ⟨0x5a⟩
def LOG0 : Opcode := ⟨0xa0⟩
def LOG1 : Opcode := ⟨0xa1⟩
def LOG2 : Opcode := ⟨0xa2⟩
def LOG3 : Opcode := ⟨0xa3⟩
def LOG4 : Opcode := ⟨0xa4⟩
def CREATE : Opcode := ⟨0xf0⟩
def CREATE2 : Opcode := ⟨0xf5⟩
def CALL : Opcode := ⟨0xf1⟩
def CALLCODE : Opcode := ⟨0xf2⟩
def DELEGATECALL : Opcode := ⟨0xf4⟩
def STATICCALL : Opcode := ⟨0xfa⟩
def SUICIDE : Opcode := ⟨0xff⟩
def CHAINID : Opcode := ⟨0x46⟩

end Opcode

/-- All 145 named opcode constants of the two `impl Opcode` blocks, in
source order: first the core block (`opcode.rs` lines 146-313, 109
constants), then the external block (lines 316-385, 36 constants). -/
def namedOpcodeConstants : List Opcode :=
  [Opcode.STOP, Opcode.ADD, Opcode.MUL, Opcode.SUB, Opcode.DIV,
   Opcode.SDIV, Opcode.MOD, Opcode.SMOD, Opcode.ADDMOD, Opcode.MULMOD,
   Opcode.EXP, Opcode.SIGNEXTEND, Opcode.LT, Opcode.GT, Opcode.SLT,
   Opcode.SGT, Opcode.EQ, Opcode.ISZERO, Opcode.AND, Opcode.OR,
   Opcode.XOR, Opcode.NOT, Opcode.BYTE, Opcode.CALLDATALOAD,
   Opcode.CALLDATASIZE, Opcode.CALLDATACOPY, Opcode.CODESIZE,
   Opcode.CODECOPY, Opcode.SHL, Opcode.SHR, Opcode.SAR, Opcode.POP,
   Opcode.MLOAD, Opcode.MSTORE, Opcode.MSTORE8, Opcode.JUMP,
   Opcode.JUMPI, Opcode.PC, Opcode.MSIZE, Opcode.JUMPDEST,
   Opcode.PUSH0, Opcode.PUSH1, Opcode.PUSH2, Opcode.PUSH3,
   Opcode.PUSH4, Opcode.PUSH5, Opcode.PUSH6, Opcode.PUSH7,
   Opcode.PUSH8, Opcode.PUSH9, Opcode.PUSH10, Opcode.PUSH11,
   Opcode.PUSH12, Opcode.PUSH13, Opcode.PUSH14, Opcode.PUSH15,
   Opcode.PUSH16, Opcode.PUSH17, Opcode.PUSH18, Opcode.PUSH19,
   Opcode.PUSH20, Opcode.PUSH21, Opcode.PUSH22, Opcode.PUSH23,
   Opcode.PUSH24, Opcode.PUSH25, Opcode.PUSH26, Opcode.PUSH27,
   Opcode.PUSH28, Opcode.PUSH29, Opcode.PUSH30, Opcode.PUSH31,
   Opcode.PUSH32, Opcode.DUP1, Opcode.DUP2, Opcode.DUP3, Opcode.DUP4,
   Opcode.DUP5, Opcode.DUP6, Opcode.DUP7, Opcode.DUP8, Opcode.DUP9,
   Opcode.DUP10, Opcode.DUP11, Opcode.DUP12, Opcode.DUP13,
   Opcode.DUP14, Opcode.DUP15, Opcode.DUP16, Opcode.SWAP1,
   Opcode.SWAP2, Opcode.SWAP3, Opcode.SWAP4, Opcode.SWAP5,
   Opcode.SWAP6, Opcode.SWAP7, Opcode.SWAP8, Opcode.SWAP9,
   Opcode.SWAP10, Opcode.SWAP11, Opcode.SWAP12, Opcode.SWAP13,
   Opcode.SWAP14, Opcode.SWAP15, Opcode.SWAP16, Opcode.RETURN,
   Opcode.REVERT, Opcode.INVALID, Opcode.EOFMAGIC,
   Opcode.SHA3, Opcode.ADDRESS, Opcode.BALANCE, Opcode.SELFBALANCE,
   Opcode.BASEFEE, Opcode.ORIGIN, Opcode.CALLER, Opcode.CALLVALUE,
   Opcode.GASPRICE, Opcode.EXTCODESIZE, Opcode.EXTCODECOPY,
   Opcode.EXTCODEHASH, Opcode.RETURNDATASIZE, Opcode.RETURNDATACOPY,
   Opcode.BLOCKHASH, Opcode.COINBASE, Opcode.TIMESTAMP, Opcode.NUMBER,
   Opcode.DIFFICULTY, Opcode.GASLIMIT, Opcode.SLOAD, Opcode.SSTORE,
   Opcode.GAS, Opcode.LOG0, Opcode.LOG1, Opcode.LOG2, Opcode.LOG3,
   Opcode.LOG4, Opcode.CREATE, Opcode.CREATE2, Opcode.CALL,
   Opcode.CALLCODE, Opcode.DELEGATECALL, Opcode.STATICCALL,
   Opcode.SUICIDE, Opcode.CHAINID]

/-- Rust `{:x}` (lower-case hex, no padding, no leading zeros) applied to
a one-byte value, as used by the `Display` impl for `Opcode`
(`opcode.rs` line 13).  A byte has at most two hex digits.
`Nat.digitChar` yields exactly Rust's lower-case digit characters. -/
def byteToHexLower (n : Nat) : String :=
  if n < 16 then String.mk [Nat.digitChar n]
  else String.mk [Nat.digitChar (n / 16), Nat.digitChar (n % 16)]

namespace Opcode

/-- Embedding of `impl Display for Opcode` (`opcode.rs` lines 10-15):
formats as `0x{:x} / {}` where the second field is
`as_str().unwrap_or("[UNKNOWN]")`. -/
def display (o : Opcode) : String :=
  let s := (o.as_str).getD "[UNKNOWN]"
  "0x" ++ byteToHexLower o.toByte ++ " / " ++ s

end Opcode

/-- Modelled from the spec: the `ExitError` family of `ExitReason`
("execution-level failure ... e.g. invalid opcode, stack
underflow/overflow, invalid jump", spec section 3/7).  Its defining
module `core/src/error.rs` is not among the given sources; the
constructors here are the ones the spec names, with `InvalidCode`
carrying the offending opcode as `handler.rs` line 139 requires. -/
inductive ExitError where
  | StackUnderflow : ExitError
  | StackOverflow : ExitError
  | InvalidJump : ExitError
  | OutOfGas : ExitError
  | InvalidCode : Opcode → ExitError
  deriving DecidableEq, Repr

/-- Modelled from the spec: the `ExitFatal` family ("unrecoverable
host/environment failure", spec section 3), whose defining module is not
among the given sources.  `CallErrorAsFatal` wraps an execution-level
error escalated to fatal, as used by the `Handler::other` default
(`handler.rs` line 139). -/
inductive ExitFatal where
  | CallErrorAsFatal : ExitError → ExitFatal
  deriving DecidableEq, Repr

/-- Modelled from the spec: `ExitReason`, a "tagged union with at least
four families: Succeed, Error, Revert, Fatal" (spec section 3).  Its
defining module is not among the given sources; only the shape of the
four families is needed here. -/
inductive ExitReason where
  | Succeed : ExitReason
  | Error : ExitError → ExitReason
  | Revert : ExitReason
  | Fatal : ExitFatal → ExitReason
  deriving DecidableEq, Repr

/-- Modelled from the spec: the `From<ExitFatal>`-then-`Into<ExitReason>`
conversion used when `Self::RuntimeError = ExitReason`; the spec requires
that a fatal error "must convert to at least Fatal status" (section 7),
i.e. it lands in the `Fatal` family wrapping the same payload. -/
def exitFatalToReason (f : ExitFatal) : ExitReason :=
  ExitReason.Fatal f

namespace Handler

/-- Embedding of the default body of `Handler::create_feedback`
(`handler.rs` lines 109-114): `&mut self` receiver becomes explicit
state passing, the `_feedback` argument is ignored, the state is left
untouched and the result is `Ok(())`.  `S` is the handler state, `F` the
engine-specific `CreateFeedback` type and `E` the `RuntimeError` type. -/
def create_feedback (S F E : Type) (s : S) (_feedback : F) : S × Except E Unit :=
  (s, Except.ok ())

/-- Embedding of the default body of `Handler::call_feedback`
(`handler.rs` lines 126-128): identical shape to `create_feedback`, with
`F` now the engine-specific `CallFeedback` type. -/
def call_feedback (S F E : Type) (s : S) (_feedback : F) : S × Except E Unit :=
  (s, Except.ok ())

/-- Embedding of the default body of `Handler::other` (`handler.rs`
lines 138-140): the handler state and the `_stack: &mut Machine` argument
(type `M`, opaque to this default since the body never touches it) are
passed through unchanged, and the result is
`Err(ExitFatal::CallErrorAsFatal(ExitError::InvalidCode(opcode)).into())`,
with `.into()` embedded as the explicit conversion `fromFatal` from
`ExitFatal` into the engine's `RuntimeError` type `E`. -/
def other (E M : Type) (fromFatal : ExitFatal → E) (opcode : Opcode) (stack : M) :
    M × Except E Unit :=
  (stack, Except.error (fromFatal (ExitFatal.CallErrorAsFatal (ExitError.InvalidCode opcode))))

end Handler

/-- Spec-side enumeration for the mnemonic table, written out from the
spec's byte-to-name direction so that `Opcode.as_str` can be compared
against it entry by entry: the pairs are exactly the assigned arms of the
`match` in `as_str` (`opcode.rs` lines 19-141), in byte order. -/
def asStrTable : List (Nat × String) :=
  [(0x00, "STOP"), (0x01, "ADD"), (0x02, "MUL"), (0x03, "SUB"),
   (0x04, "DIV"), (0x05, "SDIV"), (0x06, "MOD"), (0x07, "SMOD"),
   (0x08, "ADDMOD"), (0x09, "MULMOD"), (0x0a, "EXP"), (0x0b, "SIGNEXTEND"),
   (0x10, "LT"), (0x11, "GT"), (0x12, "SLT"), (0x13, "SGT"),
   (0x14, "EQ"), (0x15, "ISZERO"), (0x16, "AND"), (0x17, "OR"),
   (0x18, "XOR"), (0x19, "NOT"), (0x1a, "BYTE"), (0x1b, "SHL"),
   (0x1c, "SHR"), (0x1d, "SAR"), (0x35, "CALLDATALOAD"),
   (0x36, "CALLDATASIZE"), (0x37, "CALLDATACOPY"), (0x38, "CODESIZE"),
   (0x39, "CODECOPY"), (0x50, "POP"), (0x51, "MLOAD"), (0x52, "MSTORE"),
   (0x53, "MSTORE8"), (0x56, "JUMP"), (0x57, "JUMPI"), (0x58, "PC"),
   (0x59, "MSIZE"), (0x5b, "JUMPDEST"), (0x5f, "PUSH0"),
   (0x60, "PUSH1"), (0x61, "PUSH2"), (0x62, "PUSH3"), (0x63, "PUSH4"),
   (0x64, "PUSH5"), (0x65, "PUSH6"), (0x66, "PUSH7"), (0x67, "PUSH8"),
   (0x68, "PUSH9"), (0x69, "PUSH10"), (0x6a, "PUSH11"), (0x6b, "PUSH12"),
   (0x6c, "PUSH13"), (0x6d, "PUSH14"), (0x6e, "PUSH15"), (0x6f, "PUSH16"),
   (0x70, "PUSH17"), (0x71, "PUSH18"), (0x72, "PUSH19"), (0x73, "PUSH20"),
   (0x74, "PUSH21"), (0x75, "PUSH22"), (0x76, "PUSH23"), (0x77, "PUSH24"),
   (0x78, "PUSH25"), (0x79, "PUSH26"), (0x7a, "PUSH27"), (0x7b, "PUSH28"),
   (0x7c, "PUSH29"), (0x7d, "PUSH30"), (0x7e, "PUSH31"), (0x7f, "PUSH32"),
   (0x80, "DUP1"), (0x81, "DUP2"), (0x82, "DUP3"), (0x83, "DUP4"),
   (0x84, "DUP5"), (0x85, "DUP6"), (0x86, "DUP7"), (0x87, "DUP8"),
   (0x88, "DUP9"), (0x89, "DUP10"), (0x8a, "DUP11"), (0x8b, "DUP12"),
   (0x8c, "DUP13"), (0x8d, "DUP14"), (0x8e, "DUP15"), (0x8f, "DUP16"),
   (0x90, "SWAP1"), (0x91, "SWAP2"), (0x92, "SWAP3"), (0x93, "SWAP4"),
   (0x94, "SWAP5"), (0x95, "SWAP6"), (0x96, "SWAP7"), (0x97, "SWAP8"),
   (0x98, "SWAP9"), (0x99, "SWAP10"), (0x9a, "SWAP11"), (0x9b, "SWAP12"),
   (0x9c, "SWAP13"), (0x9d, "SWAP14"), (0x9e, "SWAP15"), (0x9f, "SWAP16"),
   (0xef, "EOFMAGIC"), (0xf3, "RETURN"), (0xfd, "REVERT"), (0xfe, "INVALID")]

/-- Unfolding lemma for `is_push` on an explicitly wrapped byte. -/
theorem is_push_mk (b : Nat) :
    Opcode.is_push ⟨b⟩ = if 0x60 ≤ b ∧ b ≤ 0x7f then some (b - 0x60 + 1) else none :=
  rfl

/-- C1: the claim asserts that external opcodes such as SLOAD, CALL and
CREATE2 are among the mnemonics returned by `as_str`.  They are not: the
`match` in `as_str` has no arm for their bytes, so each of them falls
into the catch-all `None` arm even though the constants carry assigned
bytes (0x54, 0xf1, 0xf5). -/
theorem as_str_misses_external_mnemonics :
    Opcode.as_str Opcode.SLOAD = none ∧ Opcode.SLOAD.as_u8 = 0x54 ∧
    Opcode.as_str Opcode.CALL = none ∧ Opcode.CALL.as_u8 = 0xf1 ∧
    Opcode.as_str Opcode.CREATE2 = none ∧ Opcode.CREATE2.as_u8 = 0xf5 := by
  decide

set_option maxRecDepth 40000 in
/-- C1 (amended): over the whole byte space, `as_str` agrees exactly with
the explicit 109-entry table `asStrTable` — each listed byte yields its
mnemonic and every byte outside the table (externally assigned bytes such
as 0x54/SLOAD included) yields no name; the table has 109 pairwise
distinct bytes, not the ~140 named constants. -/
theorem as_str_exactly_core_table :
    (∀ b : Fin 256, Opcode.as_str ⟨b.val⟩ = asStrTable.lookup b.val) ∧
    asStrTable.length = 109 ∧ (asStrTable.map Prod.fst).Nodup := by
  decide

/-- C2: for every byte in [0x60, 0x7f], `is_push` returns exactly
`some (b - 0x60 + 1)` with the count in 1..=32 and strictly monotonic in
the byte; for every byte outside the range, 0x5f (PUSH0) and 0x00
included, it returns `none`. -/
theorem is_push_spec :
    (∀ b : Nat, 0x60 ≤ b → b ≤ 0x7f →
      Opcode.is_push ⟨b⟩ = some (b - 0x60 + 1) ∧ 1 ≤ b - 0x60 + 1 ∧ b - 0x60 + 1 ≤ 32) ∧
    (∀ b : Fin 256, b.val < 0x60 ∨ 0x7f < b.val → Opcode.is_push ⟨b.val⟩ = none) ∧
    Opcode.is_push Opcode.PUSH0 = none ∧
    Opcode.is_push Opcode.STOP = none ∧
    Opcode.is_push ⟨0x60⟩ = some 1 ∧
    Opcode.is_push ⟨0x7f⟩ = some 32 ∧
    (∀ a b : Nat, 0x60 ≤ a → a < b → b ≤ 0x7f →
      (Opcode.is_push ⟨a⟩).getD 0 < (Opcode.is_push ⟨b⟩).getD 0) := by
  refine ⟨?_, ?_, by decide, by decide, by decide, by decide, ?_⟩
  · intro b h1 h2
    rw [is_push_mk, if_pos ⟨h1, h2⟩]
    exact ⟨rfl, by omega, by omega⟩
  · intro b hb
    rw [is_push_mk, if_neg]
    omega
  · intro a b h1 h2 h3
    rw [is_push_mk, is_push_mk, if_pos ⟨h1, by omega⟩, if_pos ⟨by omega, h3⟩]
    simp only [Option.getD_some]
    omega

/-- C2 witness: the general statements of `is_push_spec` applied at the
concrete bytes 0x61 (inside the range), 0x00 (outside), and the pair
(0x60, 0x7f) for monotonicity. -/
theorem is_push_spec_witness :
    (Opcode.is_push ⟨0x61⟩ = some (0x61 - 0x60 + 1) ∧
      1 ≤ 0x61 - 0x60 + 1 ∧ 0x61 - 0x60 + 1 ≤ 32) ∧
    Opcode.is_push ⟨0x00⟩ = none ∧
    (Opcode.is_push ⟨0x60⟩).getD 0 < (Opcode.is_push ⟨0x7f⟩).getD 0 :=
  ⟨is_push_spec.1 0x61 (by decide) (by decide),
   is_push_spec.2.1 ⟨0x00, by decide⟩ (Or.inl (by decide)),
   is_push_spec.2.2.2.2.2.2 0x60 0x7f (by decide) (by decide) (by decide)⟩

/-- C3: the named opcode constants carry the published Ethereum byte
assignments exactly: PUSH0 = 0x5f, PUSH1..PUSH32 = 0x60..0x7f,
DUP1..DUP16 = 0x80..0x8f, SWAP1..SWAP16 = 0x90..0x9f, RETURN = 0xf3,
REVERT = 0xfd, INVALID = 0xfe, EOFMAGIC = 0xef. -/
theorem named_constants_published_bytes :
    Opcode.PUSH0.as_u8 = 0x5f ∧
    [Opcode.PUSH1, Opcode.PUSH2, Opcode.PUSH3, Opcode.PUSH4, Opcode.PUSH5,
     Opcode.PUSH6, Opcode.PUSH7, Opcode.PUSH8, Opcode.PUSH9, Opcode.PUSH10,
     Opcode.PUSH11, Opcode.PUSH12, Opcode.PUSH13, Opcode.PUSH14,
     Opcode.PUSH15, Opcode.PUSH16, Opcode.PUSH17, Opcode.PUSH18,
     Opcode.PUSH19, Opcode.PUSH20, Opcode.PUSH21, Opcode.PUSH22,
     Opcode.PUSH23, Opcode.PUSH24, Opcode.PUSH25, Opcode.PUSH26,
     Opcode.PUSH27, Opcode.PUSH28, Opcode.PUSH29, Opcode.PUSH30,
     Opcode.PUSH31, Opcode.PUSH32].map Opcode.as_u8 = List.range' 0x60 32 ∧
    [Opcode.DUP1, Opcode.DUP2, Opcode.DUP3, Opcode.DUP4, Opcode.DUP5,
     Opcode.DUP6, Opcode.DUP7, Opcode.DUP8, Opcode.DUP9, Opcode.DUP10,
     Opcode.DUP11, Opcode.DUP12, Opcode.DUP13, Opcode.DUP14, Opcode.DUP15,
     Opcode.DUP16].map Opcode.as_u8 = List.range' 0x80 16 ∧
    [Opcode.SWAP1, Opcode.SWAP2, Opcode.SWAP3, Opcode.SWAP4, Opcode.SWAP5,
     Opcode.SWAP6, Opcode.SWAP7, Opcode.SWAP8, Opcode.SWAP9, Opcode.SWAP10,
     Opcode.SWAP11, Opcode.SWAP12, Opcode.SWAP13, Opcode.SWAP14,
     Opcode.SWAP15, Opcode.SWAP16].map Opcode.as_u8 = List.range' 0x90 16 ∧
    Opcode.RETURN.as_u8 = 0xf3 ∧
    Opcode.REVERT.as_u8 = 0xfd ∧
    Opcode.INVALID.as_u8 = 0xfe ∧
    Opcode.EOFMAGIC.as_u8 = 0xef := by
  decide

/-- C4: the default `Handler::other`, instantiated with
`RuntimeError = ExitReason` via the spec-mandated fatal conversion and
invoked at opcode 0x0c, leaves the machine untouched and returns a Fatal
exit reason wrapping `InvalidCode(Opcode(0x0c))`; and in general the
default result at any opcode is
`ExitFatal.CallErrorAsFatal (ExitError.InvalidCode opcode)` so converted. -/
theorem other_default_fatal_invalid_code :
    ∀ (M : Type) (m : M),
      Handler.other ExitReason M exitFatalToReason ⟨0x0c⟩ m
        = (m, Except.error (ExitReason.Fatal
            (ExitFatal.CallErrorAsFatal (ExitError.InvalidCode ⟨0x0c⟩)))) ∧
      ∀ op : Opcode,
        Handler.other ExitReason M exitFatalToReason op m
          = (m, Except.error (ExitReason.Fatal
              (ExitFatal.CallErrorAsFatal (ExitError.InvalidCode op)))) :=
  fun _ _ => ⟨rfl, fun _ => rfl⟩

/-- C5: the default `call_feedback` and `create_feedback` succeed with
`Ok(())` unconditionally, for every handler state type and state, every
feedback type and value, and every error type; the state is untouched. -/
theorem feedback_defaults_ok :
    ∀ (S F E : Type) (s : S) (f : F),
      Handler.call_feedback S F E s f = (s, Except.ok ()) ∧
      Handler.create_feedback S F E s f = (s, Except.ok ()) :=
  fun _ _ _ _ _ => ⟨rfl, rfl⟩

/-- C6: wrapping any byte in an Opcode and reading it back with `as_u8`
is the identity on bytes. -/
theorem as_u8_roundtrip :
    ∀ b : Fin 256, (Opcode.mk b.val).as_u8 = b.val :=
  fun _ => rfl

/-- C7: `as_usize` equals `as_u8` (widened) on every opcode, and the
concrete byte values of ADD, STOP, PUSH1, DUP1, SWAP1, RETURN, REVERT,
CREATE2 and CHAINID agree under both conversions. -/
theorem as_u8_as_usize_width_conversions :
    (∀ o : Opcode, o.as_usize = o.as_u8) ∧
    Opcode.ADD.as_u8 = 0x01 ∧ Opcode.ADD.as_usize = 1 ∧
    Opcode.STOP.as_u8 = 0x00 ∧ Opcode.STOP.as_usize = 0 ∧
    Opcode.PUSH1.as_u8 = 0x60 ∧ Opcode.PUSH1.as_usize = 0x60 ∧
    Opcode.DUP1.as_u8 = 0x80 ∧ Opcode.DUP1.as_usize = 0x80 ∧
    Opcode.SWAP1.as_u8 = 0x90 ∧ Opcode.SWAP1.as_usize = 0x90 ∧
    Opcode.RETURN.as_u8 = 0xf3 ∧ Opcode.RETURN.as_usize = 0xf3 ∧
    Opcode.REVERT.as_u8 = 0xfd ∧ Opcode.REVERT.as_usize = 0xfd ∧
    Opcode.CREATE2.as_u8 = 0xf5 ∧ Opcode.CREATE2.as_usize = 0xf5 ∧
    Opcode.CHAINID.as_u8 = 0x46 ∧ Opcode.CHAINID.as_usize = 0x46 :=
  ⟨fun _ => rfl, by decide⟩

/-- C8: Display renders ADD as "0x1 / ADD" and the unassigned byte 0x0c
as "0xc / [UNKNOWN]". -/
theorem display_add_and_unknown :
    Opcode.display Opcode.ADD = "0x1 / ADD" ∧
    Opcode.display ⟨0x0c⟩ = "0xc / [UNKNOWN]" := by
  decide

/-- C9: the default `Handler::other` fails for every opcode whatsoever —
mnemonic-carrying bytes like ADD or CALL included — for every error type,
conversion and machine state; its Ok branch is unreachable. -/
theorem other_default_always_errs :
    ∀ (E M : Type) (fromFatal : ExitFatal → E) (op : Opcode) (m : M),
      (Handler.other E M fromFatal op m).2
        = Except.error (fromFatal (ExitFatal.CallErrorAsFatal (ExitError.InvalidCode op))) ∧
      ∀ u : Unit, (Handler.other E M fromFatal op m).2 ≠ Except.ok u :=
  fun _ _ _ _ _ => ⟨rfl, fun _ h => Except.noConfusion h⟩

set_option maxRecDepth 40000 in
/-- C10: the 145 named opcode constants of the core and external blocks
have pairwise distinct byte values. -/
theorem named_constants_distinct :
    (namedOpcodeConstants.map Opcode.as_u8).Nodup ∧
    namedOpcodeConstants.length = 145 := by
  decide
